import Mathlib

/-!
Verification of the TutorMate academic-assistant bot.

This file shallowly embeds the pieces of the repository that the checked
properties are about:

* the intent classifier (`tutor_agent.py`, `_analyze_user_intent`),
* the paper-reference regex `paper_[a-f0-9]{8}` used by the classifier and
  the summary/download handlers,
* the paper cache (`database.py`: `cache_paper`, `get_cached_paper`,
  `save_paper_summary`) and the summary handler
  (`tutor_agent.py`, `_handle_summary_request`),
* interest tracking (`database.py`, `update_user_interest`, and
  `tutor_agent.py`, `_extract_topics_from_query`),
* the download operation (`api_integrations.py`, `download_paper` and
  `_get_arxiv_id_from_paper_id`),
* the orchestrator boundary (`tutor_agent.py`, `process_message`).

Strings are modelled with Lean `String`s; Python `needle in haystack` is
literal substring containment; Python `str.lower` is modelled on the ASCII
range (all keywords and identifier patterns in the source are ASCII).
The SQLite tables are modelled as finite maps (Lean functions into
`Option`), the filesystem as a map from path to file size, and the
external HTTP/LLM providers as explicit function parameters whose
invocations are counted or recorded.
-/

namespace TutorMate

/-! ## String machinery: `str.lower`, substring containment, regexes -/

/-- ASCII lowering of one character, modelling Python `str.lower` on the
ASCII range used by the classifier's keywords and patterns. -/
def toLowerChar (c : Char) : Char :=
  if 'A' ≤ c ∧ c ≤ 'Z' then Char.ofNat (c.toNat + 32) else c

/-- `message.lower()` (ASCII model). -/
def strLower (s : String) : String := ⟨s.data.map toLowerChar⟩

/-- `n` is an initial segment of `h` (Python `h.startswith(n)`). -/
def chLeads : List Char → List Char → Bool
  | [], _ => true
  | _ :: _, [] => false
  | a :: n, b :: h => (a == b) && chLeads n h

/-- `n` occurs as a contiguous sublist of `h`. -/
def chContains (n : List Char) : List Char → Bool
  | [] => n.isEmpty
  | c :: t => chLeads n (c :: t) || chContains n t

/-- Python `needle in haystack` on strings: literal substring containment. -/
def strContains (haystack needle : String) : Bool :=
  chContains needle.data haystack.data

/-- A lowercase hexadecimal digit, the character class `[a-f0-9]`. -/
def isLowerHex (c : Char) : Bool :=
  ('a' ≤ c && c ≤ 'f') || ('0' ≤ c && c ≤ '9')

/-- The literal `paper_` that opens the paper-reference pattern. -/
def paperTag : List Char := "paper_".data

/-- Try to match the regex `paper_[a-f0-9]{8}` at the head of `l`,
returning the matched token. -/
def matchPaperAt (l : List Char) : Option String :=
  if chLeads paperTag l then
    let hex := (l.drop 6).take 8
    if (hex.length == 8) && hex.all isLowerHex then some ⟨paperTag ++ hex⟩
    else none
  else none

/-- Leftmost match of `paper_[a-f0-9]{8}`, scanning position by position. -/
def findPaperIdAux : List Char → Option String
  | [] => none
  | c :: t =>
    match matchPaperAt (c :: t) with
    | some r => some r
    | none => findPaperIdAux t

/-- `re.search(r'paper_[a-f0-9]{8}', s)`: the leftmost match, if any. -/
def findPaperId (s : String) : Option String := findPaperIdAux s.data

/-! ## The intent classifier (`_analyze_user_intent`) -/

/-- `_analyze_user_intent` from `tutor_agent.py`: ordered, first-match-wins
keyword and regex checks over the lower-cased message. -/
def analyze_user_intent (message : String) : String :=
  let m := strLower message
  if strContains m "download" || strContains m "get pdf" || strContains m "save paper" then
    "download_paper"
  else if strContains m "my downloads" || strContains m "downloaded papers" || strContains m "show downloads" then
    "get_downloads"
  else if (findPaperId m).isSome && (strContains m "summarize" || strContains m "summary" || strContains m "explain") then
    "generate_summary"
  else if (strContains m "summarize" || strContains m "summary" || strContains m "explain") && !(strContains m "search" || strContains m "find") then
    "generate_summary"
  else if (strContains m "search" || strContains m "find" || strContains m "paper" || strContains m "research") && !(findPaperId m).isSome then
    "search_papers"
  else if strContains m "history" || strContains m "previous" || strContains m "past searches" then
    "get_history"
  else if strContains m "interests" || strContains m "topics" || strContains m "my research" then
    "get_interests"
  else
    "general_chat"

/-! ## Substring containment lemmas -/

theorem chLeads_iff (n h : List Char) : chLeads n h = true ↔ ∃ q, h = n ++ q := by
  induction n generalizing h with
  | nil => simp [chLeads]
  | cons a n ih =>
    cases h with
    | nil => simp [chLeads]
    | cons b t =>
      simp only [chLeads, Bool.and_eq_true, beq_iff_eq, ih, List.cons_append,
        List.cons.injEq]
      constructor
      · rintro ⟨rfl, q, rfl⟩
        exact ⟨q, rfl, rfl⟩
      · rintro ⟨q, rfl, rfl⟩
        exact ⟨rfl, q, rfl⟩

theorem chContains_iff (n h : List Char) :
    chContains n h = true ↔ ∃ p q, h = p ++ n ++ q := by
  induction h with
  | nil =>
    simp only [chContains, List.isEmpty_iff]
    constructor
    · rintro rfl
      exact ⟨[], [], rfl⟩
    · rintro ⟨p, q, hpq⟩
      rcases List.append_eq_nil.mp hpq.symm with ⟨h1, h2⟩
      exact (List.append_eq_nil.mp h1).2
  | cons c t ih =>
    simp only [chContains, Bool.or_eq_true, chLeads_iff, ih]
    constructor
    · rintro (⟨q, hq⟩ | ⟨p, q, rfl⟩)
      · exact ⟨[], q, by simpa using hq⟩
      · exact ⟨c :: p, q, rfl⟩
    · rintro ⟨p, q, hpq⟩
      cases p with
      | nil => exact Or.inl ⟨q, by simpa using hpq⟩
      | cons x p =>
        rcases (by simpa using hpq : c = x ∧ t = p ++ n ++ q) with ⟨rfl, rfl⟩
        exact Or.inr ⟨p, q, rfl⟩

theorem strContains_iff (h n : String) :
    strContains h n = true ↔ ∃ p q, h.data = p ++ n.data ++ q :=
  chContains_iff n.data h.data

/-- Substring containment is transitive. -/
theorem strContains_trans {l k n : String} (h1 : strContains l k = true)
    (h2 : strContains k n = true) : strContains l n = true := by
  rcases (strContains_iff l k).mp h1 with ⟨p, q, hp⟩
  rcases (strContains_iff k n).mp h2 with ⟨p', q', hp'⟩
  refine (strContains_iff l n).mpr ⟨p ++ p', q' ++ q, ?_⟩
  rw [hp, hp']
  simp [List.append_assoc]

/-- Lowering both sides preserves substring containment. -/
theorem strContains_lower {m n : String} (h : strContains m n = true) :
    strContains (strLower m) (strLower n) = true := by
  rcases (strContains_iff m n).mp h with ⟨p, q, hp⟩
  refine (strContains_iff (strLower m) (strLower n)).mpr
    ⟨p.map toLowerChar, q.map toLowerChar, ?_⟩
  show m.data.map toLowerChar = _
  rw [hp]
  simp [strLower]

/-- Each keyword of the download-history rule literally contains
`download`, so the download rule (checked first) subsumes it. -/
theorem rule2_imp_rule1 (l : String)
    (h : (strContains l "my downloads" || strContains l "downloaded papers" ||
          strContains l "show downloads") = true) :
    (strContains l "download" || strContains l "get pdf" ||
     strContains l "save paper") = true := by
  rcases Bool.or_eq_true _ _ |>.mp h with h' | h'
  · rcases Bool.or_eq_true _ _ |>.mp h' with h'' | h''
    · simp [strContains_trans h'' (show strContains "my downloads" "download" = true by decide)]
    · simp [strContains_trans h'' (show strContains "downloaded papers" "download" = true by decide)]
  · simp [strContains_trans h' (show strContains "show downloads" "download" = true by decide)]

/-! ## Claims about the intent classifier -/

/-- C4: the classifier never returns `get_downloads`: every trigger phrase
of the download-history rule contains the substring `download`, so the
`download_paper` rule, checked first, always fires before it. -/
theorem intent_never_get_downloads (m : String) :
    analyze_user_intent m ≠ "get_downloads" := by
  unfold analyze_user_intent
  by_cases h1 : (strContains (strLower m) "download" ||
      strContains (strLower m) "get pdf" ||
      strContains (strLower m) "save paper") = true
  · simp only [h1, if_true]
    decide
  · have h2 : (strContains (strLower m) "my downloads" ||
        strContains (strLower m) "downloaded papers" ||
        strContains (strLower m) "show downloads") = false := by
      cases hc : (strContains (strLower m) "my downloads" ||
          strContains (strLower m) "downloaded papers" ||
          strContains (strLower m) "show downloads")
      · rfl
      · exact absurd (rule2_imp_rule1 _ hc) h1
    simp only [h1, h2, Bool.false_eq_true, if_false]
    split_ifs <;> decide

/-- C4 (witness): a download-history phrase still routes to
`download_paper`, not `get_downloads`. -/
theorem intent_never_get_downloads_witness :
    analyze_user_intent "show downloads" ≠ "get_downloads" :=
  intent_never_get_downloads "show downloads"

/-- C2 (counterexample): a message that matches the paper-reference
pattern and contains `summarize` but also contains `download` is
classified `download_paper`, not `generate_summary`. -/
theorem summary_ref_counterexample :
    (findPaperId (strLower "download and summarize paper_0a1b2c3d")).isSome = true ∧
    strContains (strLower "download and summarize paper_0a1b2c3d") "summarize" = true ∧
    analyze_user_intent "download and summarize paper_0a1b2c3d" = "download_paper" ∧
    analyze_user_intent "download and summarize paper_0a1b2c3d" ≠ "generate_summary" := by
  decide

/-- With pattern and `summarize` present, the classifier cannot reach the
search rule: its intent is one of the earlier branches. -/
theorem intent_not_search_of (m : String)
    (hpat : (findPaperId (strLower m)).isSome = true)
    (hsum : strContains (strLower m) "summarize" = true) :
    analyze_user_intent m ≠ "search_papers" := by
  unfold analyze_user_intent
  by_cases h1 : (strContains (strLower m) "download" ||
      strContains (strLower m) "get pdf" ||
      strContains (strLower m) "save paper") = true
  · simp only [h1, if_true]
    decide
  · have h1' : (strContains (strLower m) "download" ||
        strContains (strLower m) "get pdf" ||
        strContains (strLower m) "save paper") = false := by
      cases hc : (strContains (strLower m) "download" ||
          strContains (strLower m) "get pdf" ||
          strContains (strLower m) "save paper")
      · rfl
      · exact absurd hc h1
    have h2 : (strContains (strLower m) "my downloads" ||
        strContains (strLower m) "downloaded papers" ||
        strContains (strLower m) "show downloads") = false := by
      cases hc : (strContains (strLower m) "my downloads" ||
          strContains (strLower m) "downloaded papers" ||
          strContains (strLower m) "show downloads")
      · rfl
      · exact absurd (rule2_imp_rule1 _ hc) h1
    simp only [h1', h2, hpat, hsum, Bool.false_eq_true, if_false,
      Bool.true_or, Bool.and_self, if_true]
    decide

/-- With pattern and `summarize` present and every download keyword
absent, rule 3 classifies the message `generate_summary`. -/
theorem intent_gen_summary_of (m : String)
    (hpat : (findPaperId (strLower m)).isSome = true)
    (hsum : strContains (strLower m) "summarize" = true)
    (hd : strContains (strLower m) "download" = false)
    (hg : strContains (strLower m) "get pdf" = false)
    (hs : strContains (strLower m) "save paper" = false) :
    analyze_user_intent m = "generate_summary" := by
  have h1 : (strContains (strLower m) "download" ||
      strContains (strLower m) "get pdf" ||
      strContains (strLower m) "save paper") = false := by
    simp [hd, hg, hs]
  have h2 : (strContains (strLower m) "my downloads" ||
      strContains (strLower m) "downloaded papers" ||
      strContains (strLower m) "show downloads") = false := by
    cases hc : (strContains (strLower m) "my downloads" ||
        strContains (strLower m) "downloaded papers" ||
        strContains (strLower m) "show downloads")
    · rfl
    · rw [rule2_imp_rule1 _ hc] at h1
      exact absurd h1 (by decide)
  unfold analyze_user_intent
  simp only [h1, h2, hpat, hsum, Bool.false_eq_true, if_false,
    Bool.true_or, Bool.and_self, if_true]

/-- C2 (amended): a message matching the paper-reference pattern and
containing `summarize` is never classified `search_papers`; if it
moreover contains none of the download keywords (`download`, `get pdf`,
`save paper`) it is classified `generate_summary`. -/
theorem intent_summary_with_ref (m : String)
    (hpat : (findPaperId (strLower m)).isSome = true)
    (hsum : strContains (strLower m) "summarize" = true) :
    analyze_user_intent m ≠ "search_papers" ∧
    (strContains (strLower m) "download" = false →
     strContains (strLower m) "get pdf" = false →
     strContains (strLower m) "save paper" = false →
     analyze_user_intent m = "generate_summary") :=
  ⟨intent_not_search_of m hpat hsum,
   fun hd hg hs => intent_gen_summary_of m hpat hsum hd hg hs⟩

/-- C2 (witness): a concrete message with a paper reference and
`summarize` and no download keyword is classified `generate_summary`. -/
theorem intent_summary_with_ref_witness :
    analyze_user_intent "summarize paper_0a1b2c3d" = "generate_summary" :=
  (intent_summary_with_ref "summarize paper_0a1b2c3d" (by decide) (by decide)).2
    (by decide) (by decide) (by decide)

/-- C3 (counterexample): `summarize my search papers` is classified
`search_papers`, not `generate_summary`, because the literal substring
`search` does appear in the message and triggers rule 4's exclusion. -/
theorem search_exclusion_counterexample :
    analyze_user_intent "summarize my search papers" = "search_papers" ∧
    analyze_user_intent "summarize my search papers" ≠ "generate_summary" ∧
    strContains (strLower "summarize my research papers") "search" = true ∧
    analyze_user_intent "summarize my research papers" = "search_papers" := by
  decide

/-- C3 (amended): keyword matching is on literal substrings, so `search`
inside `summarize my search papers` — and equally `search` occurring
inside the word `research` — triggers rule 4's exclusion, and rule 5
then classifies both messages as `search_papers`. -/
theorem search_exclusion_literal :
    analyze_user_intent "summarize my search papers" = "search_papers" ∧
    strContains (strLower "summarize my research papers") "search" = true ∧
    analyze_user_intent "summarize my research papers" = "search_papers" := by
  decide

/-- C9: any message containing the substring `download` (and none of the
download-history phrases, which are irrelevant since the download rule
is checked first) is classified `download_paper`. -/
theorem intent_download (m : String)
    (h : strContains m "download" = true)
    (h2 : strContains m "my downloads" = false)
    (h3 : strContains m "downloaded papers" = false)
    (h4 : strContains m "show downloads" = false) :
    analyze_user_intent m = "download_paper" := by
  have hl : strContains (strLower m) "download" = true := by
    have h' := strContains_lower h
    rwa [show strLower "download" = "download" by decide] at h'
  unfold analyze_user_intent
  simp only [hl, Bool.true_or, if_true]

/-- C9 (witness): a concrete download request. -/
theorem intent_download_witness :
    analyze_user_intent "please download paper_50af359f" = "download_paper" :=
  intent_download "please download paper_50af359f" (by decide) (by decide)
    (by decide) (by decide)

/-! ## The paper store (`database.py`) and the summary handler -/

/-- A row of the `cached_papers` table. `summary` is `none` for SQL NULL. -/
structure Row where
  title : String
  authors : List String
  year : Int
  abstract : String
  url : String
  summary : Option String
  search_query : String
  deriving Repr, DecidableEq

/-- A paper record as produced by the search provider
(`api_integrations.py`, `_arxiv_search`). -/
structure PaperData where
  id : String
  title : String
  authors : List String
  year : Int
  abstract : String
  url : String
  search_query : String
  deriving Repr, DecidableEq

/-- The `cached_papers` table, keyed by `paper_id` (UNIQUE column). -/
def PaperDB := String → Option Row

/-- `cache_paper` from `database.py`: `INSERT OR REPLACE` listing every
column except `summary`, so on conflict the old row is deleted and the
new row's `summary` is NULL — a re-cache drops any stored summary. -/
def cache_paper (db : PaperDB) (p : PaperData) : PaperDB :=
  fun pid =>
    if pid = p.id then
      some { title := p.title, authors := p.authors, year := p.year,
             abstract := p.abstract, url := p.url, summary := none,
             search_query := p.search_query }
    else db pid

/-- `get_cached_paper`: a `SELECT` by `paper_id`; the empty dict returned
on a miss is modelled as `none`. -/
def get_cached_paper (db : PaperDB) (paper_id : String) : Option Row :=
  db paper_id

/-- `save_paper_summary`: `UPDATE cached_papers SET summary = ?`, a
no-op when the row is absent. -/
def save_paper_summary (db : PaperDB) (paper_id summary : String) : PaperDB :=
  fun pid =>
    if pid = paper_id then (db pid).map fun r => { r with summary := some summary }
    else db pid

/-- Python truthiness of `cached_paper.get("summary")`: `None` and the
empty string are falsy. -/
def optTruthy : Option String → Bool
  | none => false
  | some s => !(s == "")

/-- Structured payload of `_handle_summary_request`. -/
structure SummaryOut where
  response : String
  summary : Option String := none
  deriving Repr, DecidableEq

/-- The prompt returned when no paper reference is found in the message. -/
def promptForIdMsg : String :=
  "Please specify which paper you'd like me to summarize using the paper ID (like `paper_50af359f`) from the search results."

/-- The message returned when the referenced paper is not cached. -/
def notFoundMsg (paper_id : String) : String :=
  "I couldn't find paper " ++ paper_id ++ " in my cache. Please search for papers first and then try summarizing using the paper ID from the results."

/-- The rejection returned when title or abstract is missing. -/
def missingFieldsMsg (paper_id : String) : String :=
  "Missing title or abstract for paper " ++ paper_id ++ ". Cannot generate summary."

/-- The formatted summary response. -/
def summaryResponse (title s : String) : String :=
  "**Summary of: " ++ title ++ "**\n\n" ++ s

/-- `_handle_summary_request` from `tutor_agent.py`. `gen` is the
summarization provider (`generate_summary(title, abstract)`); the third
component records the paper identifier the provider was invoked for
(`none` when no provider call was made). The summary is persisted only
when non-empty (`if summary:` in the source). -/
def handle_summary_request (gen : String → String → String) (db : PaperDB)
    (message : String) : SummaryOut × PaperDB × Option String :=
  match findPaperId message with
  | none => ({ response := promptForIdMsg }, db, none)
  | some pid =>
    match get_cached_paper db pid with
    | none => ({ response := notFoundMsg pid }, db, none)
    | some row =>
      if optTruthy row.summary then
        let s := row.summary.getD ""
        ({ response := summaryResponse row.title s, summary := some s }, db, none)
      else if row.title = "" ∨ row.abstract = "" then
        ({ response := missingFieldsMsg pid }, db, none)
      else
        let s := gen row.title row.abstract
        let db1 := if s = "" then db else save_paper_summary db pid s
        ({ response := summaryResponse row.title s, summary := some s }, db1, some pid)

/-! ## Operation sequences over the paper store (for the caching claim) -/

/-- Agent-level state for the summary-caching claim: the paper cache plus
the log of paper identifiers the summarization provider was invoked for. -/
structure AgentState where
  db : PaperDB
  callLog : List String

/-- The operations named by the caching claim: a search (or re-search)
caches each returned paper (`_handle_paper_search`, which calls
`cache_paper` on every result), and a summary request runs
`_handle_summary_request`. -/
inductive AgentOp where
  | searchResults (papers : List PaperData)
  | summaryRequest (message : String)

/-- One operation applied to the agent state. -/
def stepOp (gen : String → String → String) (st : AgentState) (op : AgentOp) :
    AgentState :=
  match op with
  | .searchResults ps => { st with db := ps.foldl cache_paper st.db }
  | .summaryRequest m =>
    let r := handle_summary_request gen st.db m
    { db := r.2.1,
      callLog := st.callLog ++ (match r.2.2 with | some p => [p] | none => []) }

/-- A sequence of operations applied in order. -/
def runOps (gen : String → String → String) (st : AgentState)
    (ops : List AgentOp) : AgentState :=
  ops.foldl (stepOp gen) st

/-- The empty paper store. -/
def emptyDB : PaperDB := fun _ => none

/-! ## Claims about the summary handler and the cache -/

/-- A concrete paper record used by the caching claim. -/
def samplePaper : PaperData :=
  { id := "paper_0a1b2c3d", title := "T", authors := [], year := 2020,
    abstract := "A", url := "u", search_query := "q" }

/-- C8: a summary request whose message references a paper that is not in
the store returns the not-found message, makes no provider call, and
leaves the store unchanged. -/
theorem summary_not_found (gen : String → String → String) (db : PaperDB)
    (m pid : String) (hf : findPaperId m = some pid)
    (hdb : get_cached_paper db pid = none) :
    handle_summary_request gen db m =
      ({ response := notFoundMsg pid }, db, none) := by
  simp [handle_summary_request, hf, hdb]

/-- C8 (witness): `summarize paper_50af359f` against the empty store. -/
theorem summary_not_found_witness :
    handle_summary_request (fun _ _ => "S") emptyDB "summarize paper_50af359f" =
      ({ response := notFoundMsg "paper_50af359f" }, emptyDB, none) :=
  summary_not_found (fun _ _ => "S") emptyDB "summarize paper_50af359f"
    "paper_50af359f" (by decide) (by decide)

/-- C1 (counterexample): after search → summarize → re-search →
summarize on the same paper, the provider has been invoked twice for that
paper identifier: `cache_paper`'s `INSERT OR REPLACE` omits the `summary`
column, so the re-search drops the cached summary. -/
theorem summary_regenerated_after_recache :
    (runOps (fun _ _ => "S") { db := emptyDB, callLog := [] }
      [AgentOp.searchResults [samplePaper],
       AgentOp.summaryRequest "summarize paper_0a1b2c3d",
       AgentOp.searchResults [samplePaper],
       AgentOp.summaryRequest "summarize paper_0a1b2c3d"]).callLog
      = ["paper_0a1b2c3d", "paper_0a1b2c3d"] ∧
    (runOps (fun _ _ => "S") { db := emptyDB, callLog := [] }
      [AgentOp.searchResults [samplePaper],
       AgentOp.summaryRequest "summarize paper_0a1b2c3d",
       AgentOp.searchResults [samplePaper],
       AgentOp.summaryRequest "summarize paper_0a1b2c3d"]).callLog.count
        "paper_0a1b2c3d" = 2 := by
  decide

/-- C1 (amended): between re-caches of a paper, summary generation is
computed at most once. When the provider never returns an empty summary,
a second consecutive summary request on the same message makes no
provider call, returns the identical payload (hence identical text), and
leaves the store unchanged. (`cache_paper` on a re-search, however,
resets the stored summary and allows a fresh provider call.) -/
theorem summary_request_idempotent (gen : String → String → String)
    (db : PaperDB) (m : String) (hgen : ∀ t a, gen t a ≠ "") :
    (handle_summary_request gen (handle_summary_request gen db m).2.1 m).2.2
      = none ∧
    (handle_summary_request gen (handle_summary_request gen db m).2.1 m).1
      = (handle_summary_request gen db m).1 ∧
    (handle_summary_request gen (handle_summary_request gen db m).2.1 m).2.1
      = (handle_summary_request gen db m).2.1 := by
  cases hf : findPaperId m with
  | none => simp [handle_summary_request, hf]
  | some pid =>
    cases hdb : db pid with
    | none =>
      simp [handle_summary_request, hf, get_cached_paper, hdb]
    | some row =>
      by_cases hs : optTruthy row.summary = true
      · simp [handle_summary_request, hf, get_cached_paper, hdb, hs]
      · have hs' : optTruthy row.summary = false := by
          cases hc : optTruthy row.summary
          · rfl
          · exact absurd hc hs
        by_cases hm : row.title = "" ∨ row.abstract = ""
        · simp [handle_summary_request, hf, get_cached_paper, hdb, hs', hm]
        · have hg : gen row.title row.abstract ≠ "" := hgen _ _
          simp only [handle_summary_request, hf, get_cached_paper, hdb, hs',
            Bool.false_eq_true, if_false, hm, if_neg hg]
          simp [save_paper_summary, hdb, optTruthy, hg, hm]

/-- C1 (witness): the idempotence theorem applied to a one-paper store
with a constant non-empty provider. -/
theorem summary_request_idempotent_witness :
    (handle_summary_request (fun _ _ => "S")
        (handle_summary_request (fun _ _ => "S")
          (cache_paper emptyDB samplePaper) "summarize paper_0a1b2c3d").2.1
        "summarize paper_0a1b2c3d").2.2 = none ∧
    (handle_summary_request (fun _ _ => "S")
        (handle_summary_request (fun _ _ => "S")
          (cache_paper emptyDB samplePaper) "summarize paper_0a1b2c3d").2.1
        "summarize paper_0a1b2c3d").1
      = (handle_summary_request (fun _ _ => "S")
          (cache_paper emptyDB samplePaper) "summarize paper_0a1b2c3d").1 ∧
    (handle_summary_request (fun _ _ => "S")
        (handle_summary_request (fun _ _ => "S")
          (cache_paper emptyDB samplePaper) "summarize paper_0a1b2c3d").2.1
        "summarize paper_0a1b2c3d").2.1
      = (handle_summary_request (fun _ _ => "S")
          (cache_paper emptyDB samplePaper) "summarize paper_0a1b2c3d").2.1 :=
  summary_request_idempotent (fun _ _ => "S")
    (cache_paper emptyDB samplePaper) "summarize paper_0a1b2c3d"
    (by intro t a; show "S" ≠ ""; decide)

/-- C10: the classifier matches the paper-reference pattern against the
lower-cased message while the summary handler extracts it from the
original message with a lowercase-only pattern; a message whose reference
matches only after lowering is routed `generate_summary`, yet the handler
answers with the prompt-for-an-identifier message, makes no provider
call, and leaves the store unchanged. -/
theorem case_mismatch_routes_then_prompts (gen : String → String → String)
    (db : PaperDB) (m : String)
    (hpat : (findPaperId (strLower m)).isSome = true)
    (hsum : strContains (strLower m) "summarize" = true)
    (hd : strContains (strLower m) "download" = false)
    (hg : strContains (strLower m) "get pdf" = false)
    (hs : strContains (strLower m) "save paper" = false)
    (horig : findPaperId m = none) :
    analyze_user_intent m = "generate_summary" ∧
    handle_summary_request gen db m =
      ({ response := promptForIdMsg }, db, none) := by
  refine ⟨intent_gen_summary_of m hpat hsum hd hg hs, ?_⟩
  simp [handle_summary_request, horig]

/-- C10 (witness): `Summarize Paper_AB12CD34` — the reference matches
only after lowering. -/
theorem case_mismatch_witness :
    analyze_user_intent "Summarize Paper_AB12CD34" = "generate_summary" ∧
    handle_summary_request (fun _ _ => "S") emptyDB "Summarize Paper_AB12CD34" =
      ({ response := promptForIdMsg }, emptyDB, none) :=
  case_mismatch_routes_then_prompts (fun _ _ => "S") emptyDB
    "Summarize Paper_AB12CD34" (by decide) (by decide) (by decide) (by decide)
    (by decide) (by decide)

/-! ## Interest tracking (`update_user_interest`, `_extract_topics_from_query`) -/

/-- Whitespace for Python `str.split()` with no argument (ASCII range). -/
def isPySpace (c : Char) : Bool :=
  c == ' ' || c == '\t' || c == '\n' || c == '\r' || c == '\x0B' || c == '\x0C'

/-- Accumulating scanner behind `pySplit`; `cur` is the current word,
reversed. -/
def pyWordsAux (cur : List Char) : List Char → List (List Char)
  | [] => if cur.isEmpty then [] else [cur.reverse]
  | c :: t =>
    if isPySpace c then
      if cur.isEmpty then pyWordsAux [] t else cur.reverse :: pyWordsAux [] t
    else pyWordsAux (c :: cur) t

/-- Python `s.split()`: split on runs of whitespace, no empty tokens. -/
def pySplit (s : String) : List String :=
  (pyWordsAux [] s.data).map fun l => ⟨l⟩

/-- The stopword set of `_extract_topics_from_query`. -/
def stopwords : List String :=
  ["in", "on", "for", "about", "and", "or", "the", "a", "an", "with",
   "find", "search", "papers"]

/-- `_extract_topics_from_query` from `tutor_agent.py`: lower-case the
query, split into words, drop stopwords and words of length ≤ 2, keep the
first three. -/
def extract_topics_from_query (query : String) : List String :=
  let keywords := pySplit (strLower query)
  (keywords.filter fun w => !stopwords.contains w && decide (2 < w.length)).take 3

/-- The `user_interests` table: `(user_id, topic) → interest_score`,
unique per pair. -/
def Interests := String → String → Option Nat

/-- The empty interests table. -/
def emptyInterests : Interests := fun _ _ => none

/-- `update_user_interest` from `database.py`: `INSERT OR REPLACE` whose
new score is `COALESCE(old + 1, 1)`, keyed on the lower-cased topic. -/
def update_user_interest (db : Interests) (user topic : String) : Interests :=
  fun u t =>
    if u = user ∧ t = strLower topic then
      some (match db user (strLower topic) with
            | some s => s + 1
            | none => 1)
    else db u t

/-- Unfolding lemma for `update_user_interest` applied to a key. -/
theorem update_user_interest_apply (db : Interests) (user topic u t : String) :
    update_user_interest db user topic u t =
      if u = user ∧ t = strLower topic then
        some (match db user (strLower topic) with
              | some s => s + 1
              | none => 1)
      else db u t := rfl

/-- The stored score, read as 0 when the row is absent. -/
def scoreOf (db : Interests) (user topic : String) : Nat :=
  (db user topic).getD 0

/-- The interest updates performed by one run of the search handler
(`_handle_paper_search`: one `update_user_interest` per derived topic). -/
def searchInterestUpdate (user query : String) (db : Interests) : Interests :=
  (extract_topics_from_query query).foldl
    (fun d topic => update_user_interest d user topic) db

/-- The same search repeated `n` times. -/
def repeatSearch (user query : String) : Nat → Interests → Interests
  | 0, db => db
  | n + 1, db => searchInterestUpdate user query (repeatSearch user query n db)

/-- A fold of interest updates leaves untouched keys unchanged. -/
theorem foldl_update_untouched (ts : List String) (db : Interests)
    (user u t : String) (h : ∀ x ∈ ts, ¬(u = user ∧ t = strLower x)) :
    (ts.foldl (fun d x => update_user_interest d user x) db) u t = db u t := by
  induction ts generalizing db with
  | nil => rfl
  | cons x rest ih =>
    rw [List.foldl_cons, ih _ fun y hy => h y (List.mem_cons_of_mem x hy)]
    exact if_neg (h x (List.mem_cons_self x rest))

/-- A fold of interest updates over topics with pairwise-distinct lowered
forms increments the score of each member topic by exactly one. -/
theorem foldl_update_hit (ts : List String) (db : Interests) (user t : String)
    (hnd : (ts.map strLower).Nodup) (hmem : t ∈ ts) :
    (ts.foldl (fun d x => update_user_interest d user x) db) user (strLower t)
      = some (scoreOf db user (strLower t) + 1) := by
  induction ts generalizing db with
  | nil => exact absurd hmem (List.not_mem_nil t)
  | cons x rest ih =>
    rw [List.foldl_cons]
    by_cases hx : strLower x = strLower t
    · have hni : strLower x ∉ rest.map strLower := (List.nodup_cons.mp hnd).1
      rw [foldl_update_untouched rest _ user user (strLower t) ?_]
      · show update_user_interest db user x user (strLower t) = _
        unfold update_user_interest
        rw [if_pos ⟨rfl, hx.symm⟩]
        unfold scoreOf
        rw [← hx]
        cases hdb : db user (strLower x) <;> simp [hdb]
      · intro y hy hc
        exact (hx ▸ hni) (hc.2 ▸ List.mem_map_of_mem strLower hy)
    · have ht : t ∈ rest := by
        rcases List.mem_cons.mp hmem with rfl | h'
        · exact absurd rfl hx
        · exact h'
      have heq : update_user_interest db user x user (strLower t)
          = db user (strLower t) :=
        if_neg fun hc => hx (hc.2.symm)
      rw [ih _ (List.nodup_cons.mp hnd).2 ht]
      unfold scoreOf
      rw [heq]

/-- C6 (amended): interest scores never decrease; upserting an existing
`(user, topic)` pair increments the stored counter by one; at most three
topics are derived per query; and when the derived topics are pairwise
distinct, repeating the same search `N` times from an empty table yields
a stored count of exactly `N` for each derived topic. (Queries whose
derived topic list contains a duplicate word gain the duplicate's
multiplicity per search instead.) -/
theorem interest_score_properties :
    (∀ (db : Interests) (user topic u t : String),
      scoreOf db u t ≤ scoreOf (update_user_interest db user topic) u t) ∧
    (∀ (db : Interests) (user topic : String) (s : Nat),
      db user (strLower topic) = some s →
      update_user_interest db user topic user (strLower topic) = some (s + 1)) ∧
    (∀ q : String, (extract_topics_from_query q).length ≤ 3) ∧
    (∀ (N : Nat) (user q t : String),
      ((extract_topics_from_query q).map strLower).Nodup →
      t ∈ extract_topics_from_query q →
      scoreOf (repeatSearch user q N emptyInterests) user (strLower t) = N) := by
  refine ⟨?_, ?_, ?_, ?_⟩
  · intro db user topic u t
    show (db u t).getD 0 ≤ (update_user_interest db user topic u t).getD 0
    rw [update_user_interest_apply]
    by_cases h : u = user ∧ t = strLower topic
    · rw [if_pos h, h.1, h.2]
      cases hdb : db user (strLower topic) <;> simp [hdb]
    · rw [if_neg h]
  · intro db user topic s h
    rw [update_user_interest_apply, if_pos ⟨rfl, rfl⟩, h]
  · intro q
    exact List.length_take_le 3 _
  · intro N user q t hnd hmem
    induction N with
    | zero => rfl
    | succ n ih =>
      show scoreOf (searchInterestUpdate user q
        (repeatSearch user q n emptyInterests)) user (strLower t) = n + 1
      unfold searchInterestUpdate scoreOf
      rw [foldl_update_hit _ _ user t hnd hmem, Option.getD_some, ih]

/-- C6 (witness): two searches for `machine learning` store a count of 2
for each topic. -/
theorem interest_score_properties_witness :
    scoreOf (repeatSearch "u" "machine learning" 2 emptyInterests) "u"
      (strLower "machine") = 2 :=
  interest_score_properties.2.2.2 2 "u" "machine learning" "machine"
    (by decide) (by decide)

/-- C6 (counterexample): a query whose derived topic list repeats a word
(`deep deep`) reaches a count of 2 after a single search, not 1. -/
theorem interest_duplicate_topic_counterexample :
    extract_topics_from_query "deep deep" = ["deep", "deep"] ∧
    scoreOf (repeatSearch "u" "deep deep" 1 emptyInterests) "u" "deep" = 2 := by
  decide

/-! ## The orchestrator boundary (`process_message`) -/

/-- The payload returned by `process_message`: a response text and the
`error` flag (absent, i.e. false, on the success path). -/
structure ChatPayload where
  response : String
  error : Bool := false
  deriving Repr, DecidableEq

/-- Orchestrator-owned state: the in-memory per-user transcript
(`conversation_memory`, role/message pairs) and the persisted chat log
(`log_chat_session`). -/
structure OrchState where
  memory : String → List (String × String)
  chatLog : List (String × String × String)

/-- `process_message` from `tutor_agent.py`. The dispatched handler is a
parameter receiving the classified action, the user and the message;
`Except.error` models a raised exception whose payload is `str(e)`. The
user turn is appended to the transcript before dispatch (so it survives a
failure); the assistant turn and the chat-log write happen only on
success; any handler failure is converted into the apologetic payload. -/
def process_message (handler : String → String → String → Except String ChatPayload)
    (st : OrchState) (user msg : String) : OrchState × ChatPayload :=
  let mem1 := fun u => if u = user then st.memory u ++ [("user", msg)] else st.memory u
  let action := analyze_user_intent msg
  match handler action user msg with
  | .error e =>
    ({ st with memory := mem1 },
     { response := "I encountered an error: " ++ e, error := true })
  | .ok p =>
    let mem2 := fun u => if u = user then mem1 u ++ [("assistant", p.response)] else mem1 u
    ({ memory := mem2, chatLog := st.chatLog ++ [(user, msg, p.response)] }, p)

/-- C5: if the dispatched handler raises, `process_message` returns the
`I encountered an error: …` payload with the error flag set — it never
propagates the exception (it is a total function into a payload). -/
theorem process_message_catches (handler : String → String → String → Except String ChatPayload)
    (st : OrchState) (user msg e : String)
    (h : handler (analyze_user_intent msg) user msg = Except.error e) :
    (process_message handler st user msg).2 =
      { response := "I encountered an error: " ++ e, error := true } := by
  unfold process_message
  simp only [h]

/-- C5 (witness): a handler that always raises. -/
theorem process_message_catches_witness :
    (process_message (fun _ _ _ => Except.error "boom")
      { memory := fun _ => [], chatLog := [] } "user1" "hello").2 =
      { response := "I encountered an error: boom", error := true } :=
  process_message_catches (fun _ _ _ => Except.error "boom")
    { memory := fun _ => [], chatLog := [] } "user1" "hello" "boom" rfl

/-! ## The download operation (`api_integrations.py`) -/

/-- Outcome of a network fetch of the PDF URL (`requests.get`): a
timeout, another request error, or a response with a content type and a
body size in bytes. -/
inductive HttpResult where
  | timeout
  | reqError (msg : String)
  | ok (contentType : String) (bodySize : Nat)

/-- The local filesystem: path to file size in bytes. -/
def FS := String → Option Nat

/-- The result dict of `download_paper` (absent keys are `none`). -/
structure DownloadResult where
  success : Bool
  error : Option String := none
  file_path : Option String := none
  file_size : Option Nat := none
  arxiv_id : Option String := none
  paper_id : String
  download_url : Option String := none
  already_existed : Option Bool := none
  deriving Repr, DecidableEq

/-- Scan for the leftmost occurrence of `arxiv.org/abs/` followed by a
non-empty run of characters other than `/` and `?` — the regex
`arxiv\.org/abs/([^/?]+)` of `_get_arxiv_id_from_paper_id`. (The second
source pattern, `export\.arxiv\.org/abs/([^/?]+)`, can only match where
the first also matches, so the loop over the two patterns reduces to
this scan.) -/
def findArxivIdAux : List Char → Option String
  | [] => none
  | c :: t =>
    if chLeads "arxiv.org/abs/".data (c :: t) then
      let cap := ((c :: t).drop 14).takeWhile fun x => !(x == '/' || x == '?')
      if cap.isEmpty then findArxivIdAux t else some ⟨cap⟩
    else findArxivIdAux t

/-- `_get_arxiv_id_from_paper_id`: look the paper's URL up in the cache
(`None` when the row is missing or the URL falsy) and extract the arXiv
identifier from it. -/
def get_arxiv_id_from_paper_id (db : PaperDB) (paper_id : String) : Option String :=
  match db paper_id with
  | none => none
  | some row => if row.url = "" then none else findArxivIdAux row.url.data

/-- The safe file name: `arxiv_id.replace('/', '_').replace(':', '_') + ".pdf"`. -/
def safeFilename (arxiv_id : String) : String :=
  ⟨arxiv_id.data.map fun c => if c = '/' ∨ c = ':' then '_' else c⟩ ++ ".pdf"

/-- `download_paper` from `api_integrations.py`. `fetch` is the network;
the returned triple is the result dict, the filesystem after the call,
and the number of network fetches performed. -/
def download_paper (db : PaperDB) (fs : FS) (fetch : String → HttpResult)
    (paper_id : String) : DownloadResult × FS × Nat :=
  match get_arxiv_id_from_paper_id db paper_id with
  | none =>
    ({ success := false,
       error := some "Could not find arXiv ID for this paper. Make sure the paper is from arXiv.",
       paper_id := paper_id }, fs, 0)
  | some aid =>
    let pdf_url := "https://arxiv.org/pdf/" ++ aid ++ ".pdf"
    let file_path := "downloads/" ++ safeFilename aid
    match fs file_path with
    | some sz =>
      ({ success := true, file_path := some file_path, file_size := some sz,
         arxiv_id := some aid, paper_id := paper_id,
         download_url := some pdf_url, already_existed := some true }, fs, 0)
    | none =>
      match fetch pdf_url with
      | .timeout =>
        ({ success := false,
           error := some "Download timed out. The paper might be large or the server is slow.",
           paper_id := paper_id }, fs, 1)
      | .reqError m =>
        ({ success := false, error := some ("Download failed: " ++ m),
           paper_id := paper_id }, fs, 1)
      | .ok contentType bodySize =>
        if strContains (strLower contentType) "html" then
          ({ success := false,
             error := some "Paper not available for download (received HTML instead of PDF)",
             paper_id := paper_id }, fs, 1)
        else
          let fs1 : FS := fun p => if p = file_path then some bodySize else fs p
          if bodySize < 1024 then
            ({ success := false,
               error := some "Downloaded file appears to be invalid (too small)",
               paper_id := paper_id },
             (fun p => if p = file_path then none else fs1 p), 1)
          else
            ({ success := true, file_path := some file_path,
               file_size := some bodySize, arxiv_id := some aid,
               paper_id := paper_id, download_url := some pdf_url,
               already_existed := some false }, fs1, 1)

/-- C7: when the derived local file already exists, a download call
performs zero network fetches, reuses the existing file (the filesystem
is returned unchanged), and reports success with `already_existed = true`
and the existing file's path and size. -/
theorem download_idempotent (db : PaperDB) (fs : FS) (fetch : String → HttpResult)
    (paper_id aid : String) (sz : Nat)
    (haid : get_arxiv_id_from_paper_id db paper_id = some aid)
    (hfs : fs ("downloads/" ++ safeFilename aid) = some sz) :
    download_paper db fs fetch paper_id =
      ({ success := true,
         file_path := some ("downloads/" ++ safeFilename aid),
         file_size := some sz, arxiv_id := some aid, paper_id := paper_id,
         download_url := some ("https://arxiv.org/pdf/" ++ aid ++ ".pdf"),
         already_existed := some true }, fs, 0) := by
  unfold download_paper
  rw [haid]
  simp only [hfs]

/-- C7 (witness): a one-paper store whose PDF is already on disk. -/
theorem download_idempotent_witness :
    download_paper
      (fun pid => if pid = "paper_0a1b2c3d" then
        some { title := "T", authors := [], year := 2020, abstract := "A",
               url := "https://arxiv.org/abs/1234.5678", summary := none,
               search_query := "q" } else none)
      (fun p => if p = "downloads/1234.5678.pdf" then some 5000 else none)
      (fun _ => HttpResult.timeout) "paper_0a1b2c3d" =
      ({ success := true, file_path := some ("downloads/" ++ safeFilename "1234.5678"),
         file_size := some 5000, arxiv_id := some "1234.5678",
         paper_id := "paper_0a1b2c3d",
         download_url := some ("https://arxiv.org/pdf/" ++ "1234.5678" ++ ".pdf"),
         already_existed := some true },
       (fun p => if p = "downloads/1234.5678.pdf" then some 5000 else none), 0) :=
  download_idempotent
    (fun pid => if pid = "paper_0a1b2c3d" then
      some { title := "T", authors := [], year := 2020, abstract := "A",
             url := "https://arxiv.org/abs/1234.5678", summary := none,
             search_query := "q" } else none)
    (fun p => if p = "downloads/1234.5678.pdf" then some 5000 else none)
    (fun _ => HttpResult.timeout) "paper_0a1b2c3d" "1234.5678" 5000
    (by decide) (by decide)

end TutorMate
